import Mathlib

/-!
Verification development for the `ai-infra-monitor` Lambda function
(`src/lambda_function.py`): a shallow embedding of its data model and
operations, together with theorems settling the specification claims.
-/

namespace AiInfraMonitor

/-! ## Substring containment (Python's `word in message`) -/

/-- Whether the second character list starts with the first one. -/
def charsStartWith : List Char → List Char → Bool
  | [], _ => true
  | _ :: _, [] => false
  | p :: ps, c :: cs => p == c && charsStartWith ps cs

/-- Whether `pat` occurs as a contiguous run inside the second list. -/
def charsContain (pat : List Char) : List Char → Bool
  | [] => charsStartWith pat []
  | c :: cs => charsStartWith pat (c :: cs) || charsContain pat cs

/-- Python's `pat in msg` substring test. -/
def strContains (msg pat : String) : Bool :=
  charsContain pat.toList msg.toList

/-- Python's `str.lower()`, character by character (ASCII letters, as in
`Char.toLower`, which covers every message and keyword in this program). -/
def strLower (s : String) : String :=
  ⟨s.data.map Char.toLower⟩

/-! ## Data model -/

/-- A log entry as built by `fetch_recent_logs` (lines 68-72):
`{'timestamp': ..., 'message': ..., 'log_group': ...}`. -/
structure LogEntry where
  timestamp : Int
  message : String
  log_group : String
deriving DecidableEq

/-- The dictionary returned by `analyze_logs_simple` (lines 119-124). -/
structure AnalysisResult where
  severity : String
  issues_found : List String
  recommendations : List String
  summary : String
deriving DecidableEq

/-! ## Severity Classifier and Recommendation Engine (`analyze_logs_simple`) -/

/-- The error keyword list of line 93. -/
def errorKeywords : List String := ["error", "exception", "failed", "critical"]

/-- The warning keyword list of line 95. -/
def warningKeywords : List String := ["warning", "warn", "deprecated"]

/-- Whether the entry's lower-cased message contains an error keyword
(the condition of line 93). -/
def isErrorEntry (log : LogEntry) : Bool :=
  errorKeywords.any fun word => strContains (strLower log.message) word

/-- Whether the entry's lower-cased message contains a warning keyword
(the condition of line 95). -/
def isWarningEntry (log : LogEntry) : Bool :=
  warningKeywords.any fun word => strContains (strLower log.message) word

/-- One iteration of the classification loop (lines 91-96), acting on the
accumulator `(error_count, warning_count)`. -/
def classifyStep (acc : Nat × Nat) (log : LogEntry) : Nat × Nat :=
  let message := (strLower log.message)
  if errorKeywords.any (fun word => strContains message word) then
    (acc.1 + 1, acc.2)
  else if warningKeywords.any (fun word => strContains message word) then
    (acc.1, acc.2 + 1)
  else
    acc

/-- The classification loop of lines 87-96: final `(error_count, warning_count)`. -/
def classifyCounts (log_data : List LogEntry) : Nat × Nat :=
  log_data.foldl classifyStep (0, 0)

/-- `analyze_logs_simple` (lines 83-124). -/
def analyze_logs_simple (log_data : List LogEntry) : AnalysisResult :=
  let counts := classifyCounts log_data
  let error_count := counts.1
  let warning_count := counts.2
  let sevIssues : String × List String :=
    if error_count > 5 then
      ("high", ["High error count detected: " ++ toString error_count ++ " errors"])
    else if error_count > 2 then
      ("medium", ["Moderate error count: " ++ toString error_count ++ " errors"])
    else if warning_count > 10 then
      ("medium", ["Many warnings detected: " ++ toString warning_count ++ " warnings"])
    else
      ("low", [])
  let recommendations :=
    (if error_count > 0 then ["Review error logs for root cause analysis"] else []) ++
    (if warning_count > 5 then ["Address warning conditions to prevent issues"] else [])
  let recommendations :=
    if recommendations = [] then ["Continue monitoring - system appears stable"]
    else recommendations
  { severity := sevIssues.1
    issues_found := sevIssues.2
    recommendations := recommendations
    summary := "Analyzed " ++ toString log_data.length ++ " logs: " ++
      toString error_count ++ " errors, " ++ toString warning_count ++ " warnings" }

/-! ## Response Builder (`create_response`) -/

/-- A JSON value, covering the Python values this program serializes. -/
inductive Json where
  | str : String → Json
  | nat : Nat → Json
  | arr : List Json → Json
  | obj : List (String × Json) → Json

/-- String escaping of `json.dumps` for the characters this program can
produce (quote, backslash, and ASCII control characters). -/
def escChar (c : Char) : String :=
  if c = '"' then "\\\""
  else if c = '\\' then "\\\\"
  else if c = '\n' then "\\n"
  else if c = '\t' then "\\t"
  else if c = '\r' then "\\r"
  else String.mk [c]

/-- A JSON string literal with its surrounding quotes. -/
def escString (s : String) : String :=
  "\"" ++ String.join (s.data.map escChar) ++ "\""

mutual

/-- `json.dumps` with Python's default separators. -/
def Json.dumps : Json → String
  | .str s => escString s
  | .nat n => toString n
  | .arr xs => "[" ++ dumpsList xs ++ "]"
  | .obj kvs => "\x7b" ++ dumpsObj kvs ++ "\x7d"

/-- Comma-separated serialization of an array's elements. -/
def dumpsList : List Json → String
  | [] => ""
  | [x] => Json.dumps x
  | x :: y :: rest => Json.dumps x ++ ", " ++ dumpsList (y :: rest)

/-- Comma-separated serialization of an object's key-value pairs. -/
def dumpsObj : List (String × Json) → String
  | [] => ""
  | [(k, v)] => escString k ++ ": " ++ Json.dumps v
  | (k, v) :: kv :: rest => escString k ++ ": " ++ Json.dumps v ++ ", " ++ dumpsObj (kv :: rest)

end

/-- The `body` argument of `create_response`: either a Python `dict`
(serialized by `json.dumps`) or already a string. -/
inductive Body where
  | strBody : String → Body
  | dictBody : List (String × Json) → Body

/-- The Lambda response envelope built by `create_response` (lines 160-167). -/
structure Response where
  statusCode : Nat
  headers : List (String × String)
  body : String
deriving DecidableEq

/-- `create_response` (lines 156-167): `json.dumps(body) if isinstance(body, dict)
else str(body)` under the fixed envelope. -/
def create_response (status_code : Nat) (body : Body) : Response :=
  { statusCode := status_code
    headers := [("Content-Type", "application/json"), ("Access-Control-Allow-Origin", "*")]
    body :=
      match body with
      | .dictBody d => Json.dumps (.obj d)
      | .strBody s => s }

/-! ## Metrics Publisher (`store_metrics`) -/

/-- A CloudWatch metric datum as sent by `put_metric_data` (lines 137-148). -/
structure MetricPoint where
  name : String
  value : Nat
  unit : String
deriving DecidableEq

/-- The `severity_map` dictionary of line 131. -/
def severity_map : List (String × Nat) :=
  [("low", 1), ("medium", 2), ("high", 3), ("critical", 4)]

/-- `severity_map.get(severity, 1)` of line 132. -/
def severityValue (severity : String) : Nat :=
  ((severity_map.lookup severity).getD 1)

/-- The `MetricData` batch of lines 137-148. -/
def metricDataOf (analysis : AnalysisResult) : List MetricPoint :=
  [⟨"SeverityLevel", severityValue analysis.severity, "None"⟩,
   ⟨"IssuesFound", analysis.issues_found.length, "Count"⟩]

/-! ## Environment of a single invocation

The external collaborators and the dynamic-failure possibilities of the
Python runtime, as oracles fixed per invocation. -/

/-- A Python exception, reduced to the message `str(e)` yields. -/
structure Exn where
  msg : String
deriving DecidableEq

/-- The oracle for one invocation: what each external call returns or
raises. `analyzeRaises` models an `UnhandledFailure` escaping the analysis
stage (e.g. malformed data during classification), the one place of the
`try` block with no local guard around its work. -/
structure Env where
  streams : List (Except Exn (List LogEntry))
  fetchOuterRaises : Option Exn
  analyzeRaises : Option Exn
  putMetricRaises : Option Exn

/-- Python's `all_logs[-30:]`: the last `n` elements of a list. -/
def takeLast (n : Nat) (xs : List α) : List α :=
  xs.drop (xs.length - n)

/-- `fetch_recent_logs` (lines 45-81): aggregate the per-stream results,
skipping streams whose query raised (lines 73-75); any failure outside the
per-stream guard is caught by the outer guard, which returns `[]`
(lines 79-81); truncate to the last 30 entries (line 77). -/
def fetch_recent_logs (env : Env) : List LogEntry :=
  match env.fetchOuterRaises with
  | some _ => []
  | none =>
    let all_logs := env.streams.foldl
      (fun acc r =>
        match r with
        | .ok events => acc ++ events
        | .error _ => acc)
      []
    takeLast 30 all_logs

/-- `store_metrics` (lines 126-154): best-effort; if `put_metric_data`
raises, the exception is caught and logged and nothing is stored. Returns
the batch actually delivered to the metrics store. -/
def store_metrics (putMetricRaises : Option Exn) (analysis : AnalysisResult) : List MetricPoint :=
  match putMetricRaises with
  | some _ => []
  | none => metricDataOf analysis

/-- What the handler did besides returning: which metric points reached the
store, and whether `store_metrics` was invoked at all. -/
structure HandlerOutcome where
  response : Response
  metricsDelivered : List MetricPoint
  storeMetricsInvoked : Bool
deriving DecidableEq

/-- The success body of lines 35-39. -/
def successBody (log_data : List LogEntry) (analysis : AnalysisResult) : Body :=
  .dictBody
    [("message", .str "Log analysis completed"),
     ("logs_analyzed", .nat log_data.length),
     ("analysis", .obj
       [("severity", .str analysis.severity),
        ("issues_found", .arr (analysis.issues_found.map .str)),
        ("recommendations", .arr (analysis.recommendations.map .str)),
        ("summary", .str analysis.summary)])]

/-- The `try` block of `lambda_handler` (lines 15-39): either a normal
outcome or the exception that escaped. -/
def runPipeline (env : Env) : Except Exn HandlerOutcome :=
  let log_data := fetch_recent_logs env
  if log_data.isEmpty then
    .ok ⟨create_response 200 (.strBody "No recent logs to analyze"), [], false⟩
  else
    match env.analyzeRaises with
    | some e => .error e
    | none =>
      let analysis := analyze_logs_simple log_data
      let delivered := store_metrics env.putMetricRaises analysis
      .ok ⟨create_response 200 (successBody log_data analysis), delivered, true⟩

/-- `lambda_handler` (lines 11-43): run the pipeline; any exception that
escapes it is converted to a 500 response (lines 41-43). -/
def lambda_handler (env : Env) : HandlerOutcome :=
  match runPipeline env with
  | .ok outcome => outcome
  | .error e => ⟨create_response 500 (.strBody ("Error: " ++ e.msg)), [], false⟩

/-! ## Specification-side definitions (for refinement claims) -/

/-- The severity decision table exactly as the specification words it,
first match winning: the resulting `(severity, issues)` pair. -/
def severityTableSpec (error_count warning_count : Nat) : String × List String :=
  if error_count > 5 then
    ("high", ["High error count detected: " ++ toString error_count ++ " errors"])
  else if error_count > 2 then
    ("medium", ["Moderate error count: " ++ toString error_count ++ " errors"])
  else if warning_count > 10 then
    ("medium", ["Many warnings detected: " ++ toString warning_count ++ " warnings"])
  else
    ("low", [])

/-- The specification's severity ordering low < medium < high, as a rank. -/
def severityTier (severity : String) : Nat :=
  if severity = "low" then 0
  else if severity = "medium" then 1
  else if severity = "high" then 2
  else 3

/-! ## Helper lemmas -/

/-- The loop body tests exactly the `isErrorEntry` / `isWarningEntry`
conditions. -/
lemma classifyStep_mk (a b : Nat) (log : LogEntry) :
    classifyStep (a, b) log =
      if isErrorEntry log then (a + 1, b)
      else if isWarningEntry log then (a, b + 1)
      else (a, b) := rfl

/-- Running the classification loop from an arbitrary accumulator shifts the
error count of running it from `(0, 0)`. -/
lemma classify_foldl_fst (l : List LogEntry) (a b : Nat) :
    (l.foldl classifyStep (a, b)).1 = (l.foldl classifyStep (0, 0)).1 + a := by
  induction l generalizing a b with
  | nil => simp
  | cons e l ih =>
    rw [List.foldl_cons, List.foldl_cons, classifyStep_mk, classifyStep_mk]
    by_cases he : isErrorEntry e
    · rw [if_pos he, if_pos he, ih (a + 1) b, ih 1 0]
      omega
    · by_cases hw : isWarningEntry e
      · rw [if_neg he, if_neg he, if_pos hw, if_pos hw, ih a (b + 1), ih 0 1]
        omega
      · rw [if_neg he, if_neg he, if_neg hw, if_neg hw, ih a b, ih 0 0]

/-- Running the classification loop from an arbitrary accumulator shifts the
warning count of running it from `(0, 0)`. -/
lemma classify_foldl_snd (l : List LogEntry) (a b : Nat) :
    (l.foldl classifyStep (a, b)).2 = (l.foldl classifyStep (0, 0)).2 + b := by
  induction l generalizing a b with
  | nil => simp
  | cons e l ih =>
    rw [List.foldl_cons, List.foldl_cons, classifyStep_mk, classifyStep_mk]
    by_cases he : isErrorEntry e
    · rw [if_pos he, if_pos he, ih (a + 1) b, ih 1 0]
      omega
    · by_cases hw : isWarningEntry e
      · rw [if_neg he, if_neg he, if_pos hw, if_pos hw, ih a (b + 1), ih 0 1]
        omega
      · rw [if_neg he, if_neg he, if_neg hw, if_neg hw, ih a b, ih 0 0]

/-- The error count across a cons. -/
lemma classifyCounts_fst_cons (e : LogEntry) (l : List LogEntry) :
    (classifyCounts (e :: l)).1 =
      (classifyCounts l).1 + (if isErrorEntry e then 1 else 0) := by
  show (List.foldl classifyStep (classifyStep (0, 0) e) l).1 =
    (List.foldl classifyStep (0, 0) l).1 + (if isErrorEntry e then 1 else 0)
  rw [classifyStep_mk]
  by_cases he : isErrorEntry e
  · rw [if_pos he, if_pos he, classify_foldl_fst l 1 0]
  · by_cases hw : isWarningEntry e
    · rw [if_neg he, if_neg he, if_pos hw, classify_foldl_fst l 0 1]
    · rw [if_neg he, if_neg he, if_neg hw, classify_foldl_fst l 0 0]

/-- The warning count across a cons. -/
lemma classifyCounts_snd_cons (e : LogEntry) (l : List LogEntry) :
    (classifyCounts (e :: l)).2 =
      (classifyCounts l).2 + (if !isErrorEntry e && isWarningEntry e then 1 else 0) := by
  show (List.foldl classifyStep (classifyStep (0, 0) e) l).2 =
    (List.foldl classifyStep (0, 0) l).2 + (if !isErrorEntry e && isWarningEntry e then 1 else 0)
  rw [classifyStep_mk]
  by_cases he : isErrorEntry e
  · rw [if_pos he, classify_foldl_snd l 1 0]
    simp [he]
  · by_cases hw : isWarningEntry e
    · rw [if_neg he, if_pos hw, classify_foldl_snd l 0 1]
      simp [he, hw]
    · rw [if_neg he, if_neg hw, classify_foldl_snd l 0 0]
      simp [he, hw]

/-- The severity field of the analysis, as a function of the counts. -/
lemma analyze_severity_eq (log_data : List LogEntry) :
    (analyze_logs_simple log_data).severity =
      (severityTableSpec (classifyCounts log_data).1 (classifyCounts log_data).2).1 := rfl

/-- The issue list of the analysis, as a function of the counts. -/
lemma analyze_issues_eq (log_data : List LogEntry) :
    (analyze_logs_simple log_data).issues_found =
      (severityTableSpec (classifyCounts log_data).1 (classifyCounts log_data).2).2 := rfl

/-- The recommendation list of the analysis, as a function of the counts. -/
lemma analyze_recommendations_eq (log_data : List LogEntry) :
    (analyze_logs_simple log_data).recommendations =
      (let recs :=
        (if (classifyCounts log_data).1 > 0 then ["Review error logs for root cause analysis"] else []) ++
        (if (classifyCounts log_data).2 > 5 then ["Address warning conditions to prevent issues"] else [])
       if recs = [] then ["Continue monitoring - system appears stable"] else recs) := rfl

/-- The severity field of the analysis, with the table's projections pushed
through the branches. -/
lemma analyze_severity_cases (log_data : List LogEntry) :
    (analyze_logs_simple log_data).severity =
      if (classifyCounts log_data).1 > 5 then "high"
      else if (classifyCounts log_data).1 > 2 then "medium"
      else if (classifyCounts log_data).2 > 10 then "medium"
      else "low" := by
  rw [analyze_severity_eq]
  unfold severityTableSpec
  split_ifs <;> rfl

/-- The recommendation list of the analysis, with the append and the
emptiness test resolved by cases on the two rule conditions. -/
lemma analyze_recs_cases (log_data : List LogEntry) :
    (analyze_logs_simple log_data).recommendations =
      if (classifyCounts log_data).1 > 0 then
        (if (classifyCounts log_data).2 > 5 then
          ["Review error logs for root cause analysis",
           "Address warning conditions to prevent issues"]
         else ["Review error logs for root cause analysis"])
      else if (classifyCounts log_data).2 > 5 then
        ["Address warning conditions to prevent issues"]
      else ["Continue monitoring - system appears stable"] := by
  rw [analyze_recommendations_eq]
  by_cases h1 : (classifyCounts log_data).1 > 0 <;>
    by_cases h2 : (classifyCounts log_data).2 > 5 <;>
      simp [h1, h2]

/-! ## Claim theorems -/

/-- C1: the severity and issue list of the analysis follow the fixed
decision table evaluated first-match-first, and 6 entries containing
"Error" with no warnings yield severity "high", the single high-count
issue, and the single error recommendation. -/
theorem c1_severity_decision_table :
    (∀ log_data : List LogEntry,
      ((analyze_logs_simple log_data).severity, (analyze_logs_simple log_data).issues_found)
        = severityTableSpec (classifyCounts log_data).1 (classifyCounts log_data).2)
  ∧ (analyze_logs_simple (List.replicate 6 ⟨0, "Error", "g"⟩)).severity = "high"
  ∧ (analyze_logs_simple (List.replicate 6 ⟨0, "Error", "g"⟩)).issues_found
      = ["High error count detected: 6 errors"]
  ∧ (analyze_logs_simple (List.replicate 6 ⟨0, "Error", "g"⟩)).recommendations
      = ["Review error logs for root cause analysis"] :=
  ⟨fun _ => rfl, by decide, by decide, by decide⟩

/-- C5: the response builder passes string bodies through unchanged,
serializes dictionary bodies with `json.dumps`, and always emits the given
status code under the two fixed headers. -/
theorem c5_create_response_envelope (status_code : Nat) :
    (∀ s : String, create_response status_code (.strBody s) =
      ⟨status_code,
       [("Content-Type", "application/json"), ("Access-Control-Allow-Origin", "*")], s⟩)
  ∧ (∀ d : List (String × Json), create_response status_code (.dictBody d) =
      ⟨status_code,
       [("Content-Type", "application/json"), ("Access-Control-Allow-Origin", "*")],
       Json.dumps (.obj d)⟩) :=
  ⟨fun _ => rfl, fun _ => rfl⟩

/-- C7: the empty entry sequence yields severity "low", no issues, exactly
the stability recommendation, and the all-zero summary line. -/
theorem c7_empty_input_analysis :
    analyze_logs_simple [] =
      ⟨"low", [], ["Continue monitoring - system appears stable"],
       "Analyzed 0 logs: 0 errors, 0 warnings"⟩ := by decide

/-- C8: at most one issue string is ever produced per invocation, so the
IssuesFound metric value is always 0 or 1. -/
theorem c8_issues_at_most_one (entries : List LogEntry) :
    (analyze_logs_simple entries).issues_found.length ≤ 1
  ∧ (∀ p ∈ metricDataOf (analyze_logs_simple entries),
      p.name = "IssuesFound" → (p.value = 0 ∨ p.value = 1)) := by
  have hlen : (analyze_logs_simple entries).issues_found.length ≤ 1 := by
    rw [analyze_issues_eq]
    unfold severityTableSpec
    split_ifs <;> simp
  refine ⟨hlen, ?_⟩
  intro p hp hname
  simp only [metricDataOf, List.mem_cons, List.mem_singleton, List.not_mem_nil, or_false] at hp
  rcases hp with hp | hp
  · rw [hp] at hname
    simp at hname
  · rw [hp]
    dsimp only
    omega

/-- C10: severity is "low" exactly when the issue list is empty; a non-low
severity always comes with exactly one issue. -/
theorem c10_low_iff_no_issue (entries : List LogEntry) :
    ((analyze_logs_simple entries).severity = "low"
      ↔ (analyze_logs_simple entries).issues_found = [])
  ∧ ((analyze_logs_simple entries).severity ≠ "low"
      → (analyze_logs_simple entries).issues_found.length = 1) := by
  rw [analyze_issues_eq, analyze_severity_eq]
  unfold severityTableSpec
  split_ifs <;> simp

/-- C2: classification partitions the entries: the error and warning counts
are the counts of the mutually exclusive per-entry predicates with error
keywords checked first, and together with the neutral entries they always
sum to the input length. -/
theorem c2_classification_partition (entries : List LogEntry) :
    (classifyCounts entries).1 = entries.countP (fun e => isErrorEntry e)
  ∧ (classifyCounts entries).2 = entries.countP (fun e => !isErrorEntry e && isWarningEntry e)
  ∧ (classifyCounts entries).1 + (classifyCounts entries).2
      + entries.countP (fun e => !isErrorEntry e && !isWarningEntry e) = entries.length := by
  induction entries with
  | nil => exact ⟨rfl, rfl, rfl⟩
  | cons e l ih =>
    obtain ⟨ih1, ih2, ih3⟩ := ih
    rw [ih1, ih2] at ih3
    refine ⟨?_, ?_, ?_⟩
    · rw [classifyCounts_fst_cons, ih1, List.countP_cons]
    · rw [classifyCounts_snd_cons, ih2, List.countP_cons]
    · rw [classifyCounts_fst_cons, classifyCounts_snd_cons, ih1, ih2,
        List.countP_cons, List.length_cons]
      by_cases he : isErrorEntry e <;> by_cases hw : isWarningEntry e <;>
        simp [he, hw] <;> omega

/-- C3: when the log fetch yields zero entries the handler answers 200 with
the literal body "No recent logs to analyze" and the metrics publisher is
never invoked. -/
theorem c3_empty_fetch_short_circuit (env : Env)
    (h : fetch_recent_logs env = []) :
    (lambda_handler env).response = create_response 200 (.strBody "No recent logs to analyze")
  ∧ (lambda_handler env).response.statusCode = 200
  ∧ (lambda_handler env).response.body = "No recent logs to analyze"
  ∧ (lambda_handler env).storeMetricsInvoked = false
  ∧ (lambda_handler env).metricsDelivered = [] := by
  refine ⟨?_, ?_, ?_, ?_, ?_⟩ <;> simp [lambda_handler, runPipeline, h, create_response]

/-- C3 witness: the environment with no streams at all fetches zero
entries and gets the short-circuit outcome. -/
theorem c3_empty_fetch_short_circuit_witness :
    fetch_recent_logs ⟨[], none, none, none⟩ = []
  ∧ (lambda_handler ⟨[], none, none, none⟩).response.statusCode = 200
  ∧ (lambda_handler ⟨[], none, none, none⟩).response.body = "No recent logs to analyze"
  ∧ (lambda_handler ⟨[], none, none, none⟩).storeMetricsInvoked = false :=
  ⟨rfl,
   (c3_empty_fetch_short_circuit ⟨[], none, none, none⟩ rfl).2.1,
   (c3_empty_fetch_short_circuit ⟨[], none, none, none⟩ rfl).2.2.1,
   (c3_empty_fetch_short_circuit ⟨[], none, none, none⟩ rfl).2.2.2.1⟩

/-- An invocation whose only raised exception comes from `put_metric_data`:
non-empty logs, healthy fetch and analysis, metrics store unreachable. -/
def envMetricsDown : Env :=
  ⟨[.ok [⟨0, "routine heartbeat", "g"⟩]], none, none, some ⟨"metrics store unreachable"⟩⟩

/-- C4 counterexample: an exception raised inside the pipeline (by the
metrics store during `put_metric_data`, after `store_metrics` was invoked
on a non-empty fetch) is NOT recovered by the Log Source Adapter's guards,
yet the handler still returns 200, not 500: the Metrics Publisher's own
guard recovers it. -/
theorem c4_counterexample :
    envMetricsDown.putMetricRaises = some ⟨"metrics store unreachable"⟩
  ∧ fetch_recent_logs envMetricsDown ≠ []
  ∧ (lambda_handler envMetricsDown).storeMetricsInvoked = true
  ∧ (lambda_handler envMetricsDown).metricsDelivered = []
  ∧ (lambda_handler envMetricsDown).response.statusCode = 200 := by
  refine ⟨rfl, by decide, rfl, rfl, rfl⟩

/-- C4 amended: every exception raised inside the pipeline and recovered by
neither the Log Source Adapter's internal guards nor the Metrics
Publisher's internal guard is caught at the top level and becomes a 500
response with the plain body "Error: " followed by the message; no status
code other than 200 and 500 is ever returned. -/
theorem c4_amended_error_envelope :
    (∀ env : Env, (lambda_handler env).response.statusCode = 200
      ∨ (lambda_handler env).response.statusCode = 500)
  ∧ (∀ (env : Env) (e : Exn), env.analyzeRaises = some e →
      fetch_recent_logs env ≠ [] →
      (lambda_handler env).response = create_response 500 (.strBody ("Error: " ++ e.msg))) := by
  constructor
  · intro env
    unfold lambda_handler runPipeline
    cases hfe : (fetch_recent_logs env).isEmpty
    · cases ha : env.analyzeRaises <;> simp [hfe, ha, create_response]
    · simp [hfe, create_response]
  · intro env e he hne
    have hfe : (fetch_recent_logs env).isEmpty = false := by
      cases hh : fetch_recent_logs env
      · exact absurd hh hne
      · rfl
    unfold lambda_handler runPipeline
    simp [hfe, he]

/-- An invocation in which the analysis stage itself raises. -/
def envAnalyzeFailure : Env :=
  ⟨[.ok [⟨0, "payload", "g"⟩]], none, some ⟨"boom"⟩, none⟩

/-- C4 witness: an exception escaping the analysis stage yields exactly the
500 envelope with its message. -/
theorem c4_amended_error_envelope_witness :
    (lambda_handler envAnalyzeFailure).response =
      create_response 500 (.strBody ("Error: " ++ "boom"))
  ∧ (lambda_handler envAnalyzeFailure).response.statusCode = 500 := by
  have h := c4_amended_error_envelope.2 envAnalyzeFailure ⟨"boom"⟩ rfl (by decide)
  exact ⟨h, by rw [h]; rfl⟩

/-- C6: for a fixed warning count, the severity produced by the analysis is
monotone in the error count under the ordering low < medium < high. -/
theorem c6_severity_monotone (entries entries' : List LogEntry)
    (hw : (classifyCounts entries).2 = (classifyCounts entries').2)
    (he : (classifyCounts entries).1 ≤ (classifyCounts entries').1) :
    severityTier (analyze_logs_simple entries).severity ≤
      severityTier (analyze_logs_simple entries').severity := by
  rw [analyze_severity_cases, analyze_severity_cases, ← hw]
  split_ifs <;> first | decide | (exfalso; omega)

/-- C6 witness: no entries against six error entries, both with zero
warnings. -/
theorem c6_severity_monotone_witness :
    (classifyCounts []).2 = (classifyCounts (List.replicate 6 ⟨0, "Error", "g"⟩)).2
  ∧ (classifyCounts []).1 ≤ (classifyCounts (List.replicate 6 ⟨0, "Error", "g"⟩)).1
  ∧ severityTier (analyze_logs_simple []).severity ≤
      severityTier (analyze_logs_simple (List.replicate 6 ⟨0, "Error", "g"⟩)).severity :=
  ⟨by decide, by decide,
   c6_severity_monotone [] (List.replicate 6 ⟨0, "Error", "g"⟩) (by decide) (by decide)⟩

/-- C9: the recommendation list is never empty, never longer than two, and
holds the stability message exactly when both recommendation rules fail,
the error recommendation exactly when errors were counted, and the warning
recommendation exactly when more than five warnings were counted. -/
theorem c9_recommendations_shape (entries : List LogEntry) :
    (analyze_logs_simple entries).recommendations ≠ []
  ∧ (analyze_logs_simple entries).recommendations.length ≤ 2
  ∧ ("Continue monitoring - system appears stable" ∈ (analyze_logs_simple entries).recommendations
      ↔ ((classifyCounts entries).1 = 0 ∧ (classifyCounts entries).2 ≤ 5))
  ∧ ("Review error logs for root cause analysis" ∈ (analyze_logs_simple entries).recommendations
      ↔ (classifyCounts entries).1 > 0)
  ∧ ("Address warning conditions to prevent issues" ∈ (analyze_logs_simple entries).recommendations
      ↔ (classifyCounts entries).2 > 5) := by
  rw [analyze_recs_cases]
  by_cases h1 : (classifyCounts entries).1 > 0 <;>
    by_cases h2 : (classifyCounts entries).2 > 5 <;>
      refine ⟨by simp [h1, h2], by simp [h1, h2], ?_, ?_, ?_⟩ <;>
        simp [h1, h2] <;> omega

/-- C9 witness: one error entry yields exactly the error recommendation. -/
theorem c9_recommendations_shape_witness :
    (analyze_logs_simple [⟨0, "Error", "g"⟩]).recommendations ≠ []
  ∧ "Review error logs for root cause analysis"
      ∈ (analyze_logs_simple [⟨0, "Error", "g"⟩]).recommendations :=
  ⟨(c9_recommendations_shape [⟨0, "Error", "g"⟩]).1,
   (c9_recommendations_shape [⟨0, "Error", "g"⟩]).2.2.2.1.mpr (by decide)⟩

/-- C10 witness: six error entries give a non-low severity and exactly one
issue. -/
theorem c10_low_iff_no_issue_witness :
    (analyze_logs_simple (List.replicate 6 ⟨0, "Error", "g"⟩)).issues_found.length = 1 :=
  (c10_low_iff_no_issue (List.replicate 6 ⟨0, "Error", "g"⟩)).2 (by decide)

/-- C8 witness: the empty input has no issue and the IssuesFound metric
point carries value 0. -/
theorem c8_issues_at_most_one_witness :
    (analyze_logs_simple ([] : List LogEntry)).issues_found.length ≤ 1
  ∧ ((⟨"IssuesFound", 0, "Count"⟩ : MetricPoint).value = 0
      ∨ (⟨"IssuesFound", 0, "Count"⟩ : MetricPoint).value = 1) :=
  ⟨(c8_issues_at_most_one []).1,
   (c8_issues_at_most_one []).2 ⟨"IssuesFound", 0, "Count"⟩ (by decide) rfl⟩

end AiInfraMonitor
